import Mathlib

/-!
Verification development for the fsl_mrs dynamic-fitting sources.

Shallow embedding conventions:
  * real numbers are modelled by rationals (exact arithmetic);
  * complex array entries are pairs of rationals (re, im);
  * numpy arrays are lists; slicing clamps as numpy slices do;
  * rational division by zero yields 0 (noted where it matters);
  * the mutable Python heap, where a claim is about aliasing, is an
    explicit store mapping addresses to nested arrays;
  * library routines with no exact counterpart (np.linalg.pinv, the
    nonnegative branch of np.sqrt) are abstract function parameters.
-/

namespace FslMrs

/-- Complex array entry: real and imaginary part, as exact rationals. -/
abbrev Cq := ℚ × ℚ

/-- Elementwise complex subtraction of one entry. -/
def csub (a b : Cq) : Cq := (a.1 - b.1, a.2 - b.2)

/-- Elementwise subtraction of complex arrays (numpy broadcasting not needed here). -/
def lsub (a b : List Cq) : List Cq := List.zipWith csub a b

/-- Division of a complex array by a real scalar, elementwise. -/
def ldivQ (a : List Cq) (e : ℚ) : List Cq := a.map (fun z => (z.1 / e, z.2 / e))

/-- Machine epsilon of a 32-bit IEEE float, np.finfo(np.float32).eps, exactly 2 ^ (-23). -/
def float32_eps : ℚ := 1 / 2 ^ 23

/-- Fallback step of the source gradient routine, the literal 1e-5. -/
def grad_floor : ℚ := 1 / 100000

/-- Step size chosen by misc.gradient for one coordinate: eps = abs(x[i]) * float32 eps,
replaced by 1e-5 when that product is zero (misc.py lines 98-100). -/
def stepSize (xi : ℚ) : ℚ :=
  if |xi| * float32_eps = 0 then grad_floor else |xi| * float32_eps

/-- Body of the loop of misc.gradient (misc.py lines 97-107), threading the working
array x through the iterations: for each index i it reads x[i], perturbs x[i] by the
step, evaluates f before and after, appends the forward difference quotient, and
restores x[i] to its entry value. Returns the collected rows and the final array. -/
def gradGo (f : List ℚ → List Cq) (x : List ℚ) : List ℕ → List (List Cq) × List ℚ
  | [] => ([], x)
  | i :: rest =>
    let xi := x.getD i 0
    let e := stepSize xi
    let f0 := f x
    let x1 := x.set i (xi + e)
    let f1 := f x1
    let g := ldivQ (lsub f1 f0) e
    let x2 := x1.set i xi
    let r := gradGo f x2 rest
    (g :: r.1, r.2)

/-- misc.gradient run on a private copy of the caller array (x = x.astype(float)
copies); the second component is the state of that working array after the loop. -/
def gradientRun (x : List ℚ) (f : List ℚ → List Cq) : List (List Cq) × List ℚ :=
  gradGo f x (List.range x.length)

/-- misc.gradient: the returned array of forward-difference rows. -/
def gradient (x : List ℚ) (f : List ℚ → List Cq) : List (List Cq) :=
  (gradientRun x f).1

/-- Value-level characterisation of one gradient row, used to state the claims:
the forward difference of f between x with coordinate i incremented by the step
and x itself, divided by the step. -/
def gradEntry (f : List ℚ → List Cq) (x : List ℚ) (i : ℕ) : List Cq :=
  ldivQ (lsub (f (x.set i (x.getD i 0 + stepSize (x.getD i 0)))) (f x)) (stepSize (x.getD i 0))

/-- np.var of a complex array: mean of the squared modulus of the deviation from
the complex mean (population variance, ddof = 0). -/
def cvar (z : List Cq) : ℚ :=
  let n : ℚ := z.length
  let mre := (z.map Prod.fst).sum / n
  let mim := (z.map Prod.snd).sum / n
  ((z.map (fun w => (w.1 - mre) ^ 2 + (w.2 - mim) ^ 2)).sum) / n

/-- Inner sum of the Fisher information entry of misc.calculate_lap_cov
(misc.py line 237): sum over the array of real(gi)*real(gj) + imag(gi)*imag(gj). -/
def fisherEntry (gi gj : List Cq) : ℚ :=
  (List.zipWith (fun a b => a.1 * b.1 + a.2 * b.2) gi gj).sum

/-- misc.calculate_lap_cov (misc.py lines 217-241). Estimates the noise variance as
np.var(data - f(x)), computes the numerical gradient, fills the N x N Fisher
information matrix entrywise, and returns np.linalg.pinv of it. The pseudo-inverse
routine is an abstract total function parameter pinv; np.linalg.pinv never raises on
a singular input, which the totality of pinv models. -/
def calculate_lap_cov (pinv : List (List ℚ) → List (List ℚ))
    (x : List ℚ) (f : List ℚ → List Cq) (data : List Cq) : List (List ℚ) :=
  let N := x.length
  let sig2 := cvar (lsub data (f x))
  let grad := gradient x f
  let C := (List.range N).map (fun i => (List.range N).map (fun j =>
    fisherEntry (grad.getD i []) (grad.getD j []) / sig2))
  pinv C

/-- Fisher information matrix written from the words of the specification, for the
refinement comparison of claim C1: entry (i, j) is
sum(real(g_i)*real(g_j) + imag(g_i)*imag(g_j)) / sigma2, with g = gradient(x, f) and
sigma2 the empirical variance of data - f(x). -/
def fisherInfoSpec (x : List ℚ) (f : List ℚ → List Cq) (data : List Cq) :
    List (List ℚ) :=
  (List.range x.length).map (fun i => (List.range x.length).map (fun j =>
    fisherEntry ((gradient x f).getD i []) ((gradient x f).getD j [])
      / cvar (lsub data (f x))))

/-- np.sqrt on a real scalar, with NaN modelled as none: a negative input produces
NaN (a RuntimeWarning, suppressed in the source, not an exception); a nonnegative
input produces the square root, abstracted by the parameter rsqrt. -/
def np_sqrt (rsqrt : ℚ → ℚ) (d : ℚ) : Option ℚ :=
  if d < 0 then none else some (rsqrt d)

/-- np.diagonal of a matrix held as a list of rows. -/
def npDiagonal (m : List (List ℚ)) : List ℚ :=
  (List.range m.length).map (fun i => (m.getD i []).getD i 0)

/-- Free-parameter uncertainty fields computed by dynRes_newton.__init__
(dyn_results.py lines 417-425). -/
structure NewtonUncert where
  cov_dyn : List (List ℚ)
  std_dyn : List (Option ℚ)

/-- Uncertainty part of dynRes_newton.__init__ (dyn_results.py lines 417-425):
cov = calculate_lap_cov(samples, full_fwd, data); crlb = np.diagonal(cov);
std = np.sqrt(crlb) with the invalid-value warning suppressed, so a negative
diagonal entry yields NaN and no exception. -/
def dynRes_newton_uncert (pinv : List (List ℚ) → List (List ℚ)) (rsqrt : ℚ → ℚ)
    (samples : List ℚ) (full_fwd : List ℚ → List Cq) (data : List Cq) : NewtonUncert :=
  let cov := calculate_lap_cov pinv samples full_fwd data
  let crlb := npDiagonal cov
  { cov_dyn := cov, std_dyn := crlb.map (np_sqrt rsqrt) }

/-! Heap model for the results collator. Mutable Python objects that the claims
mutate in place (the per-spectrum data arrays, the init mapped-parameter snapshot)
live in a store mapping addresses to nested arrays; a nested array is a list over
timepoints of a list over groups of value arrays. -/

/-- Nested array value: timepoints x groups x values, the shape of the init
mapped-parameter snapshot; flat arrays embed as singleton nestings. -/
abbrev Nested := List (List (List ℚ))

/-- Mutable heap: addresses to nested arrays. -/
structure Store where
  mem : ℕ → Nested

/-- In-place mutation of the object at one address. -/
def Store.write (s : Store) (a : ℕ) (v : Nested) : Store :=
  ⟨fun b => if b = a then v else s.mem b⟩

/-- Behaviour value of a parameter group as stored in VariableMapping.Parameters:
either a plain string tag (such as "fixed" or "variable"), or, modelled from the
spec, a dynamic specification carrying a model name and its coefficient names (the
VariableMapping implementation itself is not among the sources). -/
inductive Behavior
  | tag (s : String)
  | dynSpec (model : String) (params : List String)

/-- Matching of a pattern at the head of a character list. -/
def matchesAt : List Char → List Char → Bool
  | _, [] => true
  | [], _ :: _ => false
  | a :: as, b :: bs => a == b && matchesAt as bs

/-- Containment of a pattern somewhere in a character list. -/
def hasSubChars : List Char → List Char → Bool
  | [], pat => pat.isEmpty
  | a :: t, pat => matchesAt (a :: t) pat || hasSubChars t pat

/-- Substring containment on strings, the Python test pat in s for strings. -/
def hasSubstr (s pat : String) : Bool := hasSubChars s.data pat.data

/-- Python test dynamic in beh of dyn_results.py line 192: substring containment
for a string behaviour value; key membership, hence true, for a dynamic
specification (modelled from the spec, which gives dynamic groups a keyed
function-plus-coefficient-names value). -/
def behHasDynamic : Behavior → Bool
  | .tag s => hasSubstr s "dynamic"
  | .dynSpec _ _ => true

/-- VariableMapping interface as consumed by dyn_results.py. The transform fields
free_to_mapped and mapped_to_free are abstract pure functions here; their
implementation is not among the sources and concrete instances used in witnesses
are modelled from the spec. -/
structure VM where
  mapped_names : List String
  mapped_sizes : List ℕ
  Parameters : String → Behavior
  ntimes : ℕ
  free_names : List String
  free_to_mapped : List ℚ → Nested
  mapped_to_free : Nested → List ℚ

/-- Live dynMRS orchestrator object: its mutable per-spectrum data arrays live in
the store at the listed addresses; the mapping configuration and metabolite names
ride along. -/
structure DynObj where
  specAddrs : List ℕ
  vm : VM
  metabolite_names : List String

/-- Value snapshot of a dynMRS object, the result of copy.deepcopy: the spectrum
data are read out of the store into plain values, so no address survives. -/
structure DynSnap where
  specData : List Nested
  vm : VM
  metabolite_names : List String

/-- copy.deepcopy(dyn) evaluated in store s: dereference every mutable part into a
fresh value. -/
def deepcopyDyn (s : Store) (d : DynObj) : DynSnap :=
  ⟨d.specAddrs.map s.mem, d.vm, d.metabolite_names⟩

/-- dynRes object state after __init__ (dyn_results.py lines 43-61): the sample
matrix (one row per sample), the deep copy of the orchestrator, and the address of
the init mapped-parameter snapshot, which line 61 stores by reference. -/
structure DynRes where
  _data : List (List ℚ)
  _dyn : DynSnap
  _init_x_addr : ℕ

/-- dynRes.__init__ evaluated in store s: samples into the data frame, deep copy of
dyn, init x kept as a bare address. -/
def dynRes_init (s : Store) (samples : List (List ℚ)) (d : DynObj) (initAddr : ℕ) :
    DynRes :=
  ⟨samples, deepcopyDyn s d, initAddr⟩

/-- dynRes_newton.__init__ call into the parent initialiser (dyn_results.py line
414): the single optimum vector samples enters as samples[np.newaxis, :], a one-row
matrix. -/
def dynRes_newton_base (s : Store) (samples : List ℚ) (d : DynObj) (initAddr : ℕ) :
    DynRes :=
  dynRes_init s [samples] d initAddr

/-- dynRes.x (dyn_results.py lines 68-71): pandas column-wise mean of the stored
sample matrix, as a flat array. -/
def DynRes.x (r : DynRes) : List ℚ :=
  (List.range (r._data.headD []).length).map (fun j =>
    (r._data.map (fun row => row.getD j 0)).sum / (r._data.length : ℚ))

/-- Column-wise mean written from the words of the specification, for the
refinement comparison of claim C6: entry j is the mean over samples of column j. -/
def colMeanSpec (m : List (List ℚ)) : List ℚ :=
  (List.range (m.headD []).length).map (fun j =>
    (m.map (fun row => row.getD j 0)).sum / (m.length : ℚ))

/-- dynRes.flatten_mapped (dyn_results.py lines 73-86): np.hstack of each
timepoint entry, concatenating the per-group arrays. -/
def flatten_mapped (mapped : Nested) : List (List ℚ) :=
  mapped.map List.flatten

/-- dynRes.mapped_parameters (dyn_results.py lines 88-99): free_to_mapped of every
stored sample row, flattened; reads only the deep-copied mapping object and the
stored samples. -/
def DynRes.mapped_parameters (r : DynRes) : List (List (List ℚ)) :=
  r._data.map (fun fp => flatten_mapped (r._dyn.vm.free_to_mapped fp))

/-- dynRes.mapped_parameters_init (dyn_results.py lines 101-109) evaluated in store
s: flatten_mapped of the object the by-reference init snapshot address points to. -/
def DynRes.mapped_parameters_init (s : Store) (r : DynRes) : List (List ℚ) :=
  flatten_mapped (s.mem r._init_x_addr)

/-- dynRes.free_parameters_init (dyn_results.py lines 111-118) evaluated in store
s: mapped_to_free of the object the by-reference init snapshot address points to. -/
def DynRes.free_parameters_init (s : Store) (r : DynRes) : List ℚ :=
  r._dyn.vm.mapped_to_free (s.mem r._init_x_addr)

/-- Value entry of one group result dictionary: a list of names or a value array. -/
inductive RVal
  | names (l : List String)
  | vals (l : List ℚ)

/-- One parameter group result: the insertion-ordered dictionary of
dyn_results.py collected_results. -/
abbrev GroupRes := List (String × RVal)

/-- Python slice values[c : c + n]: clamped, never raising. -/
def pySlice (values : List ℚ) (c n : ℕ) : List ℚ := (values.drop c).take n

/-- Name or metab column of one group entry (dyn_results.py lines 177-180,
184-187, 195-198): metabolite names for the conc group, synthetic
group_index names otherwise. -/
def nameCol (isconc : Bool) (param : String) (nmapped : ℕ) (metabs : List String) :
    String × RVal :=
  if isconc then ("metab", .names metabs)
  else ("name", .names ((List.range nmapped).map (fun x => param ++ "_" ++ toString x)))

/-- Timepoint loop of the variable branch (dyn_results.py lines 188-190): one t
column per timepoint, each consuming nmapped values and advancing the counter. -/
def varLoop (values : List ℚ) (nmapped : ℕ) (c : ℕ) :
    List ℕ → List (String × RVal) × ℕ
  | [] => ([], c)
  | t :: ts =>
    let e := ("t" ++ toString t, RVal.vals (pySlice values c nmapped))
    let r := varLoop values nmapped (c + nmapped) ts
    (e :: r.1, r.2)

/-- Row loop of the dynamic branch (dyn_results.py lines 199-202): one row of
nfree values per mapped index, advancing the counter. -/
def dynRows (values : List ℚ) (nfree : ℕ) (c : ℕ) : List ℕ → List (List ℚ) × ℕ
  | [] => ([], c)
  | _ :: ts =>
    let row := pySlice values c nfree
    let r := dynRows values nfree (c + nfree) ts
    (row :: r.1, r.2)

/-- Per-group body of the loop of dynRes.collected_results (dyn_results.py lines
171-205), returning the group dictionary and the updated counter, or the Python
error raised on a string behaviour that passes the dynamic substring test (indexing
a string with a key raises TypeError). A behaviour that is neither fixed, nor
variable, nor dynamic falls through silently: the dictionary stays empty and the
counter does not move. -/
def groupStep (vm : VM) (metabs : List String) (values : List ℚ) (c : ℕ)
    (param : String) (nmapped : ℕ) : Except String (GroupRes × ℕ) :=
  let isconc := param = "conc"
  let beh := vm.Parameters param
  match beh with
  | .tag s =>
    if s = "fixed" then
      .ok ([nameCol isconc param nmapped metabs,
            ("Values", .vals (pySlice values c nmapped))], c + nmapped)
    else if s = "variable" then
      let r := varLoop values nmapped c (List.range vm.ntimes)
      .ok (nameCol isconc param nmapped metabs :: r.1, r.2)
    else if hasSubstr s "dynamic" then
      .error "TypeError: string indices must be integers"
    else
      .ok ([], c)
  | .dynSpec _ ps =>
    let nfree := ps.length
    let r := dynRows values nfree c (List.range nmapped)
    let cols := ps.enum.map (fun it =>
      (it.2, RVal.vals (r.1.map (fun row => row.getD it.1 0))))
    .ok (nameCol isconc param nmapped metabs :: cols, r.2)

/-- Group loop of dynRes.collected_results over mapped_names with their sizes,
threading the counter through the groups. -/
def crLoop (vm : VM) (metabs : List String) (values : List ℚ) (c : ℕ) :
    List (String × ℕ) → Except String (List (String × GroupRes))
  | [] => .ok []
  | (param, n) :: rest =>
    match groupStep vm metabs values c param n with
    | .error e => .error e
    | .ok (g, c2) =>
      match crLoop vm metabs values c2 rest with
      | .error e => .error e
      | .ok tail => .ok ((param, g) :: tail)

/-- dynRes.collected_results with to_file = None (dyn_results.py lines 149-213):
reads the deep-copied mapping object, the metabolite names and the point estimate,
and builds the hierarchical result table. -/
def DynRes.collected_results (r : DynRes) : Except String (List (String × GroupRes)) :=
  crLoop r._dyn.vm r._dyn.metabolite_names r.x 0
    (r._dyn.vm.mapped_names.zip r._dyn.vm.mapped_sizes)

/-- Call of collected_results as a transformer of the heap: the method performs no
store write (it only reads captured state), so the store passes through unchanged. -/
def collected_results_call (s : Store) (r : DynRes) :
    Except String (List (String × GroupRes)) × Store :=
  (r.collected_results, s)

/-- Bundle of every value the result object returns through its public accessors,
evaluated in a given heap state; used to state the isolation claim. -/
def DynRes.allOutputs (s : Store) (r : DynRes) :
    List ℚ × List (List (List ℚ)) × Except String (List (String × GroupRes)) ×
      List (List ℚ) × List ℚ × List String × List String :=
  (r.x, r.mapped_parameters, r.collected_results,
   r.mapped_parameters_init s, r.free_parameters_init s,
   r._dyn.vm.free_names, r._dyn.vm.mapped_names)

/-! Model of the fsl_dynmrs command-line script (scripts/fsl_dynmrs.py main). The
post-parse control flow is abstracted into a trace of effect events and an
outcome; collaborator calls are events, their values irrelevant to the claims. -/

/-- Parsed command-line options of fsl_dynmrs that steer the modelled control flow,
together with the bits of the environment the flow consults: whether the output
folder already exists, and the interactive answer to the overwrite prompt. -/
structure Args where
  h2o : Option String
  output_is_dir : Bool
  overwrite : Bool
  response_yes : Bool
  t1 : Option String
  has_xform : Bool
  report : Bool

/-- Effect events of the fsl_dynmrs main flow, in program order. -/
inductive Event
  | promptUser
  | exitCall
  | rmTree
  | mkdir
  | readData
  | checkMRS
  | loadTimeVars
  | createDynMRS
  | initialiseFit
  | dynamicFit
  | saveOptions
  | saveResults
  | saveVoxelFig
  | saveReport
deriving DecidableEq

/-- Final outcome of the fsl_dynmrs main flow. -/
inductive Outcome
  | completed
  | exitedEarly
  | raised (msg : String)
deriving DecidableEq

/-- Message of the NotImplementedError raised by fsl_dynmrs.py line 135. -/
def h2oMsg : String := "H2O referencing not yet implemented for dynamic fitting."

/-- Tail of fsl_dynmrs main after the output-folder phase (fsl_dynmrs.py lines
120-254): read the data, then reject a supplied --h2o option with
NotImplementedError before any model is built or fit; otherwise run checks, the
initialisation, the dynamic fit, and the output steps. -/
def mainRest (a : Args) : List Event × Outcome :=
  if a.h2o.isSome then
    ([Event.readData], .raised h2oMsg)
  else
    ([Event.readData, .checkMRS, .loadTimeVars, .createDynMRS,
      .initialiseFit, .dynamicFit, .saveOptions, .saveResults]
      ++ (if a.t1.isSome && a.has_xform then [Event.saveVoxelFig] else [])
      ++ (if a.report then [Event.saveReport] else []), .completed)

/-- fsl_dynmrs main after argument parsing (fsl_dynmrs.py lines 102-254): the
output-folder phase may prompt and exit early, or clears and recreates the folder,
then the remaining flow runs. -/
def fsl_dynmrs_main (a : Args) : List Event × Outcome :=
  if a.output_is_dir then
    if ¬ a.overwrite then
      if ¬ a.response_yes then
        ([Event.promptUser, .exitCall], .exitedEarly)
      else
        ([Event.promptUser, .rmTree, .mkdir] ++ (mainRest a).1, (mainRest a).2)
    else
      ([Event.rmTree, .mkdir] ++ (mainRest a).1, (mainRest a).2)
  else
    ([Event.mkdir] ++ (mainRest a).1, (mainRest a).2)

/-! Concrete fixtures used by witnesses and existence proofs. -/

/-- Modelled from the spec: mapped_to_free for a configuration whose only group is
a variable group performs a direct value copy, concatenating the per-timepoint
mapped values into the free vector (the VariableMapping implementation is not
among the sources; section 4.1 of the specification gives the direct-copy rule). -/
def vmVariableMappedToFree (m : Nested) : List ℚ :=
  (m.map List.flatten).flatten

/-- Modelled from the spec: free_to_mapped for a single variable group of size one
assigns to timepoint t the free sub-vector of t (section 4.1 of the
specification). -/
def vmVariableFreeToMapped (ntimes : ℕ) (free : List ℚ) : Nested :=
  (List.range ntimes).map (fun t => [[free.getD t 0]])

/-- Concrete mapping fixture: one variable group named conc of size one over two
timepoints. -/
def exVM : VM where
  mapped_names := ["conc"]
  mapped_sizes := [1]
  Parameters := fun _ => .tag "variable"
  ntimes := 2
  free_names := ["conc_c0_t0", "conc_c0_t1"]
  free_to_mapped := vmVariableFreeToMapped 2
  mapped_to_free := vmVariableMappedToFree

/-- Concrete orchestrator fixture: one spectrum data array at address 0. -/
def exDyn : DynObj where
  specAddrs := [0]
  vm := exVM
  metabolite_names := ["NAA"]

/-- Concrete store fixture: address 0 holds the spectrum data, address 1 holds the
init mapped-parameter snapshot. -/
def exStore : Store where
  mem := fun a => if a = 0 then [[[7, 8]]] else if a = 1 then [[[1]], [[2]]] else []

/-- Store after an in-place mutation of the spectrum data array at address 0. -/
def exStoreMut : Store := exStore.write 0 [[[9, 9]]]

/-- Store after an in-place mutation of the init snapshot at address 1. -/
def exStoreInitMut : Store := exStore.write 1 [[[5]], [[2]]]

/-- Concrete sample matrix fixture: one sample row. -/
def exSamples : List (List ℚ) := [[1, 2]]

/-- Concrete mapping fixture with a group whose behaviour tag is none of fixed,
variable, or a string containing dynamic. -/
def exVMBogus : VM where
  mapped_names := ["eps"]
  mapped_sizes := [1]
  Parameters := fun _ => .tag "frozen"
  ntimes := 2
  free_names := []
  free_to_mapped := fun _ => []
  mapped_to_free := fun _ => []

/-- Concrete model function fixture for the gradient claims: one complex output
whose real part is the first coordinate. -/
def exF (z : List ℚ) : List Cq := [(z.getD 0 0, 0)]

/-- Concrete arguments fixture with the water-reference option supplied. -/
def exArgs : Args where
  h2o := some "water.nii.gz"
  output_is_dir := false
  overwrite := false
  response_yes := false
  t1 := none
  has_xform := false
  report := false

/-! Helper lemmas. -/

theorem set_set_getD (l : List ℚ) (i : ℕ) (b : ℚ) :
    (l.set i b).set i (l.getD i 0) = l := by
  induction l generalizing i with
  | nil => simp
  | cons h t ih =>
    cases i with
    | zero => simp
    | succ n => simpa using ih n

theorem gradGo_spec (f : List ℚ → List Cq) (x : List ℚ) (is : List ℕ) :
    gradGo f x is = (is.map (gradEntry f x), x) := by
  induction is with
  | nil => rfl
  | cons i rest ih =>
    simp only [gradGo, set_set_getD, ih, List.map_cons, gradEntry]

theorem gradient_eq_map (x : List ℚ) (f : List ℚ → List Cq) :
    gradient x f = (List.range x.length).map (gradEntry f x) := by
  simp [gradient, gradientRun, gradGo_spec]

theorem range_map_getD (v : List ℚ) :
    (List.range v.length).map (fun j => v.getD j 0) = v := by
  induction v with
  | nil => rfl
  | cons h t ih =>
    rw [List.length_cons, List.range_succ_eq_map, List.map_cons, List.map_map]
    simp only [Function.comp_def, Nat.succ_eq_add_one, List.getD_cons_zero,
      List.getD_cons_succ]
    rw [ih]

/-! Claim theorems. -/

/-- Claim C4: for every coordinate i of the input vector, the forward-difference
step used by misc.gradient is the absolute value of the coordinate times the
machine epsilon of a 32-bit float (exactly 2 ^ (-23)) when the coordinate is
nonzero, and exactly 1e-5 when it is zero; and row i of the returned gradient is
f at x with coordinate i incremented by that step, minus f at x, divided by that
step. -/
theorem C4_gradient_step_and_entry (x : List ℚ) (f : List ℚ → List Cq) (i : ℕ)
    (h : i < x.length) :
    (x.getD i 0 ≠ 0 → stepSize (x.getD i 0) = |x.getD i 0| * (1 / 2 ^ 23))
    ∧ (x.getD i 0 = 0 → stepSize (x.getD i 0) = 1 / 100000)
    ∧ (gradient x f).get? i =
        some (ldivQ (lsub (f (x.set i (x.getD i 0 + stepSize (x.getD i 0)))) (f x))
          (stepSize (x.getD i 0))) := by
  refine ⟨?_, ?_, ?_⟩
  · intro hne
    have hprod : |x.getD i 0| * float32_eps ≠ 0 :=
      mul_ne_zero (abs_ne_zero.mpr hne) (by norm_num [float32_eps])
    unfold stepSize
    rw [if_neg hprod]
    rfl
  · intro h0
    unfold stepSize
    rw [if_pos (by rw [h0]; simp)]
    rfl
  · rw [gradient_eq_map]
    simp [List.get?_eq_getElem?, List.getElem?_map, List.getElem?_range, h, gradEntry]

/-- Claim C4 witness: concrete evaluation at x = [2, 0], i = 0. -/
theorem C4_gradient_step_and_entry_witness :
    0 < ([2, 0] : List ℚ).length ∧
    ((([2, 0] : List ℚ).getD 0 0 ≠ 0 →
        stepSize (([2, 0] : List ℚ).getD 0 0) = |([2, 0] : List ℚ).getD 0 0| * (1 / 2 ^ 23))
     ∧ (([2, 0] : List ℚ).getD 0 0 = 0 →
        stepSize (([2, 0] : List ℚ).getD 0 0) = 1 / 100000)
     ∧ (gradient [2, 0] exF).get? 0 =
        some (ldivQ (lsub (exF (([2, 0] : List ℚ).set 0
            (([2, 0] : List ℚ).getD 0 0 + stepSize (([2, 0] : List ℚ).getD 0 0)))) (exF [2, 0]))
          (stepSize (([2, 0] : List ℚ).getD 0 0)))) :=
  ⟨by decide, C4_gradient_step_and_entry [2, 0] exF 0 (by decide)⟩

/-- Claim C5: the working array of misc.gradient holds exactly its entry values
again once the loop has finished: every perturbed coordinate is restored, so
there is no persistent side effect on the caller array (which, in addition, the
source copies on entry via astype). -/
theorem C5_gradient_restores_input (x : List ℚ) (f : List ℚ → List Cq) :
    (gradientRun x f).2 = x := by
  simp [gradientRun, gradGo_spec]

/-- Claim C1: misc.calculate_lap_cov returns the pseudo-inverse of the Fisher
information matrix whose entry (i, j) is
sum(real(g_i)*real(g_j) + imag(g_i)*imag(g_j)) / sigma2, with g = gradient(x, f)
and sigma2 the empirical variance of data - f(x); the statement holds for every
input, in particular for singular or ill-conditioned information matrices, since
the (abstract, total) pseudo-inverse is applied unconditionally and nothing can
raise. -/
theorem C1_lap_cov_pinv_of_fisher (pinv : List (List ℚ) → List (List ℚ))
    (x : List ℚ) (f : List ℚ → List Cq) (data : List Cq) :
    calculate_lap_cov pinv x f data = pinv (fisherInfoSpec x f data) := rfl

/-- Claim C3: in the Newton-path results object the free-parameter standard
deviations are the elementwise square root of the diagonal of the covariance
matrix computed by calculate_lap_cov, and a negative diagonal entry yields NaN
(modelled as none) rather than an exception. -/
theorem C3_newton_std_sqrt_diag_nan (pinv : List (List ℚ) → List (List ℚ))
    (rsqrt : ℚ → ℚ) (samples : List ℚ) (full_fwd : List ℚ → List Cq) (data : List Cq) :
    (dynRes_newton_uncert pinv rsqrt samples full_fwd data).cov_dyn =
      calculate_lap_cov pinv samples full_fwd data
    ∧ (dynRes_newton_uncert pinv rsqrt samples full_fwd data).std_dyn =
        (npDiagonal (calculate_lap_cov pinv samples full_fwd data)).map
          (fun d => if d < 0 then none else some (rsqrt d)) :=
  ⟨rfl, rfl⟩

/-- Claim C6: the point estimate x of a results object is the column-wise mean of
the stored sample matrix, and for a Newton-path result built from a single free
parameter vector it is that vector exactly. -/
theorem C6_x_colmean_newton_exact (r : DynRes) (s : Store) (v : List ℚ)
    (d : DynObj) (a : ℕ) :
    r.x = colMeanSpec r._data ∧ (dynRes_newton_base s v d a).x = v := by
  refine ⟨rfl, ?_⟩
  show (List.range (([v] : List (List ℚ)).headD []).length).map (fun j =>
      (([v] : List (List ℚ)).map (fun row => row.getD j 0)).sum /
        ((([v] : List (List ℚ)).length : ℕ) : ℚ)) = v
  simp only [List.headD_cons, List.map_cons, List.map_nil, List.sum_cons,
    List.sum_nil, add_zero, List.length_cons, List.length_nil, Nat.cast_one,
    div_one, zero_add]
  exact range_map_getD v

/-- Claim C7: collected_results with no output file is a pure read: called twice
in succession on the same result object it returns identical output both times
and leaves the heap exactly as it was. -/
theorem C7_collected_results_pure_idempotent (s : Store) (r : DynRes) :
    (collected_results_call ((collected_results_call s r).2) r).1 =
      (collected_results_call s r).1
    ∧ (collected_results_call ((collected_results_call s r).2) r).2 = s :=
  ⟨rfl, rfl⟩

/-- Claim C2: every value a result object returns through its accessors is
unchanged by a later in-place mutation of the original spectrum list or
orchestrator object: the construction deep-copies the fitting context, so a store
s2 that differs from s only at addresses owned by the orchestrator (and distinct
from the separately passed init snapshot) yields identical outputs. -/
theorem C2_deepcopy_isolation (s s2 : Store) (d : DynObj) (initAddr : ℕ)
    (samples : List (List ℚ))
    (hframe : ∀ a : ℕ, a ∉ d.specAddrs → s2.mem a = s.mem a)
    (hinit : initAddr ∉ d.specAddrs) :
    (dynRes_init s samples d initAddr).allOutputs s2 =
      (dynRes_init s samples d initAddr).allOutputs s := by
  simp [DynRes.allOutputs, DynRes.mapped_parameters_init, DynRes.free_parameters_init,
    dynRes_init, hframe initAddr hinit]

/-- Claim C2 witness: mutating the spectrum array of the concrete orchestrator at
address 0 leaves every output of the previously built result object unchanged. -/
theorem C2_deepcopy_isolation_witness :
    (dynRes_init exStore exSamples exDyn 1).allOutputs exStoreMut =
      (dynRes_init exStore exSamples exDyn 1).allOutputs exStore :=
  C2_deepcopy_isolation exStore exStoreMut exDyn 1 exSamples
    (by
      intro a ha
      have hne : a ≠ 0 := by simpa [exDyn] using ha
      simp [exStoreMut, Store.write, hne])
    (by decide)

/-- Claim C8: a parameter group whose configured behaviour is neither the string
fixed, nor the string variable, nor a value containing the substring dynamic is
silently skipped by collected_results: its group dictionary stays empty, the
counter into the point-estimate vector does not advance, and no error is raised. -/
theorem C8_unknown_behavior_silent_noop (vm : VM) (metabs : List String)
    (values : List ℚ) (c : ℕ) (param : String) (n : ℕ) (s : String)
    (hbeh : vm.Parameters param = .tag s)
    (hf : s ≠ "fixed") (hv : s ≠ "variable")
    (hd : hasSubstr s "dynamic" = false) :
    groupStep vm metabs values c param n = .ok ([], c) := by
  unfold groupStep
  rw [hbeh]
  simp [hf, hv, hd]

/-- Claim C8 witness: concrete group with behaviour tag frozen is skipped with the
counter left at 2. -/
theorem C8_unknown_behavior_silent_noop_witness :
    groupStep exVMBogus ["NAA"] [3, 4] 2 "eps" 1 = .ok ([], 2) :=
  C8_unknown_behavior_silent_noop exVMBogus ["NAA"] [3, 4] 2 "eps" 1 "frozen"
    rfl (by decide) (by decide) (by decide)

/-- Claim C9: whenever the water-reference option is supplied and the run is not
abandoned at the output-folder prompt, fsl_dynmrs aborts with the explicit
NotImplementedError message before any initialisation, fitting, or result-saving
step executes. -/
theorem C9_h2o_not_implemented (a : Args) (hh : a.h2o.isSome = true)
    (hrun : a.output_is_dir = false ∨ a.overwrite = true ∨ a.response_yes = true) :
    (fsl_dynmrs_main a).2 = .raised h2oMsg
    ∧ Event.initialiseFit ∉ (fsl_dynmrs_main a).1
    ∧ Event.dynamicFit ∉ (fsl_dynmrs_main a).1
    ∧ Event.saveResults ∉ (fsl_dynmrs_main a).1 := by
  have hm : mainRest a = ([Event.readData], Outcome.raised h2oMsg) := by
    simp [mainRest, hh]
  cases h1 : a.output_is_dir <;> cases h2 : a.overwrite <;> cases h3 : a.response_yes <;>
    simp_all [fsl_dynmrs_main]

/-- Claim C9 witness: concrete arguments carrying an H2O file are rejected with
the NotImplementedError outcome and no fitting or saving event. -/
theorem C9_h2o_not_implemented_witness :
    exArgs.h2o.isSome = true ∧
    ((fsl_dynmrs_main exArgs).2 = .raised h2oMsg
     ∧ Event.initialiseFit ∉ (fsl_dynmrs_main exArgs).1
     ∧ Event.dynamicFit ∉ (fsl_dynmrs_main exArgs).1
     ∧ Event.saveResults ∉ (fsl_dynmrs_main exArgs).1) :=
  ⟨by decide, C9_h2o_not_implemented exArgs (by decide) (Or.inl rfl)⟩

/-- Claim C10: the init mapped-parameter snapshot is stored by reference: there is
a concrete configuration and an in-place mutation of the init snapshot object,
performed after construction, after which both mapped_parameters_init and
free_parameters_init return different values than before the mutation. -/
theorem C10_init_snapshot_by_reference :
    ∃ (s : Store) (d : DynObj) (addr : ℕ) (samples : List (List ℚ)) (v : Nested),
      (dynRes_init s samples d addr).mapped_parameters_init (s.write addr v) ≠
        (dynRes_init s samples d addr).mapped_parameters_init s
      ∧ (dynRes_init s samples d addr).free_parameters_init (s.write addr v) ≠
        (dynRes_init s samples d addr).free_parameters_init s :=
  ⟨exStore, exDyn, 1, exSamples, [[[5]], [[2]]], by decide, by decide⟩

end FslMrs
